import Mathlib

set_option maxHeartbeats 1000000

/-
Shallow embedding of the BlackSheep request-handler normalization and
parameter-binding engine (blacksheep/server/normalization.py and the
normalization entry points of blacksheep/server/application.py).

Python type annotations are modelled by the inductive `PyType`; the binder
class registries that live in blacksheep/server/bindings.py (Binder.aliases,
Binder.handlers, the BoundValue wrapper registry consulted by
get_binder_by_type, and the DI service container) are not part of the sources
under analysis, so they are modelled as an abstract environment `Env`,
faithful to the interfaces the normalization module consumes.
-/

deriving instance DecidableEq for Except

namespace BlackSheep

/-- Semantic model of a resolved Python type annotation, as seen by the
normalization module after `get_type_hints` resolution: plain classes,
`NoneType`, `Union[...]`/PEP 604 unions, generic aliases such as `List[str]`,
and `BoundValue` wrapper annotations (either a generic alias `FromX[T]`,
carrying `some T`, or a bare subclass of a `BoundValue` type, carrying
`none` and falling back to `__orig_bases__`). -/
inductive PyType where
  | named (n : String)
  | noneType
  | union (args : List PyType)
  | generic (origin : String) (args : List PyType)
  | bound (wrapper : String) (inner : Option PyType)

mutual

/-- Boolean equality on `PyType` (the derive handler does not support the
nested `List PyType` occurrences, so it is defined by hand). -/
def PyType.beq : PyType → PyType → Bool
  | .named x, .named y => x == y
  | .noneType, .noneType => true
  | .union xs, .union ys => PyType.beqL xs ys
  | .generic o1 xs, .generic o2 ys => o1 == o2 && PyType.beqL xs ys
  | .bound w1 .none, .bound w2 .none => w1 == w2
  | .bound w1 (.some t1), .bound w2 (.some t2) => w1 == w2 && PyType.beq t1 t2
  | _, _ => false

/-- Boolean equality on lists of `PyType`. -/
def PyType.beqL : List PyType → List PyType → Bool
  | [], [] => true
  | x :: xs, y :: ys => PyType.beq x y && PyType.beqL xs ys
  | _, _ => false

end

mutual

theorem PyType.beq_iff : ∀ a b : PyType, PyType.beq a b = true ↔ a = b
  | .named _, .named _ => by simp [PyType.beq]
  | .named _, .noneType => by simp [PyType.beq]
  | .named _, .union _ => by simp [PyType.beq]
  | .named _, .generic _ _ => by simp [PyType.beq]
  | .named _, .bound _ _ => by simp [PyType.beq]
  | .noneType, .named _ => by simp [PyType.beq]
  | .noneType, .noneType => by simp [PyType.beq]
  | .noneType, .union _ => by simp [PyType.beq]
  | .noneType, .generic _ _ => by simp [PyType.beq]
  | .noneType, .bound _ _ => by simp [PyType.beq]
  | .union _, .named _ => by simp [PyType.beq]
  | .union _, .noneType => by simp [PyType.beq]
  | .union xs, .union ys => by simp [PyType.beq, PyType.beqL_iff xs ys]
  | .union _, .generic _ _ => by simp [PyType.beq]
  | .union _, .bound _ _ => by simp [PyType.beq]
  | .generic _ _, .named _ => by simp [PyType.beq]
  | .generic _ _, .noneType => by simp [PyType.beq]
  | .generic _ _, .union _ => by simp [PyType.beq]
  | .generic _ xs, .generic _ ys => by simp [PyType.beq, PyType.beqL_iff xs ys]
  | .generic _ _, .bound _ _ => by simp [PyType.beq]
  | .bound _ _, .named _ => by simp [PyType.beq]
  | .bound _ _, .noneType => by simp [PyType.beq]
  | .bound _ _, .union _ => by simp [PyType.beq]
  | .bound _ _, .generic _ _ => by simp [PyType.beq]
  | .bound _ .none, .bound _ .none => by simp [PyType.beq]
  | .bound _ .none, .bound _ (.some _) => by simp [PyType.beq]
  | .bound _ (.some _), .bound _ .none => by simp [PyType.beq]
  | .bound _ (.some t1), .bound _ (.some t2) => by
      simp [PyType.beq, PyType.beq_iff t1 t2]

theorem PyType.beqL_iff : ∀ xs ys : List PyType, PyType.beqL xs ys = true ↔ xs = ys
  | [], [] => by simp [PyType.beqL]
  | [], _ :: _ => by simp [PyType.beqL]
  | _ :: _, [] => by simp [PyType.beqL]
  | x :: xs, y :: ys => by
      simp [PyType.beqL, PyType.beq_iff x y, PyType.beqL_iff xs ys]

end

instance : DecidableEq PyType :=
  fun a b => decidable_of_iff (PyType.beq a b = true) (PyType.beq_iff a b)

/-- Model of `inspect._ParameterKind`. -/
inductive PKind where
  | positionalOrKeyword
  | positionalOnly
  | varPositional
  | varKeyword
  | keywordOnly
deriving DecidableEq

/-- Opaque model of Python runtime values used as parameter defaults. -/
inductive PyVal where
  | noneV
  | strV (s : String)
  | intV (n : Int)
  | objV (tag : String)
deriving DecidableEq

/-- Model of `ParamInfo`: one declared parameter after annotation resolution.
`annot = none` models `inspect._empty` (no type annotation);
`default = none` models `inspect._empty` (no default). -/
structure Param where
  name : String
  kind : PKind
  annot : Option PyType
  default : Option PyVal := none
deriving DecidableEq

/-- The kind of a Python function object: plain (sync) function, coroutine
function (`async def f(): return ...`), or asynchronous generator function
(`async def f(): yield ...`).  In Python these are mutually exclusive and
`inspect.iscoroutinefunction` is False for async generator functions. -/
inductive FKind where
  | syncFn
  | coroutineFn
  | asyncgenFn
deriving DecidableEq

/-- The observable signature of a callable: its `__name__`, the ordered
parameters produced by `_get_method_annotations_base`, and its function kind. -/
structure FuncSig where
  name : String
  params : List Param
  fkind : FKind
deriving DecidableEq

/-- Descriptor of a concrete Binder implementation class living in
blacksheep/server/bindings.py (not part of the analysed sources): its class
name and whether it subclasses `BodyBinder`, `RouteBinder`, `ServiceBinder`. -/
structure BClass where
  cname : String
  is_body : Bool := false
  is_route : Bool := false
  is_service : Bool := false
deriving DecidableEq

/-- The class of a resolved binder instance: the four classes instantiated
directly by normalization.py (`RouteBinder`, `ServiceBinder`, `QueryBinder`,
`IdentityBinder`) or a class coming from one of the bindings.py registries. -/
inductive BinderKind where
  | route
  | service
  | query
  | identity
  | wrapperCls (c : BClass)
  | handlerCls (c : BClass)
  | aliasCls (c : BClass)
deriving DecidableEq

/-- Model of a `Binder` instance as configured by normalization.py:
expected type, parameter (source) name, `implicit`, `required`,
`root_required` and the attached default (`none` models `bindings.empty`). -/
structure BBinder where
  kind : BinderKind
  expected_type : PyType
  param_name : String
  implicit : Bool := false
  required : Bool := true
  root_required : Bool := true
  default : Option PyVal := none
deriving DecidableEq

/-- One entry of the list built by `_get_binders_for_function`: either the
module-level `_next_handler_binder` sentinel object or a real Binder. -/
inductive BinderOrSentinel where
  | sentinel
  | real (b : BBinder)
deriving DecidableEq

/-- The exceptions normalization can raise.  `normalizationErr` is the bare
`NormalizationError` raised by `_check_union`; `valueError` and `typeError`
model the builtin exceptions raised with the given message. -/
inductive NormErr where
  | normalizationErr (msg : String)
  | unsupportedSignature
  | ambiguousMethodSignature
  | routeBinderMismatch (param_name : String)
  | valueError (msg : String)
  | typeError (msg : String)
deriving DecidableEq

/-- Environment data for one registered `BoundValue` wrapper type: the Binder
implementation class returned by `get_binder_by_type`, the argument of its
`__orig_bases__` (for bare subclasses of `FromX[T]`), its class-level `name`
attribute, and - when the binder class is registered in the DI container -
the singleton instance returned by `services.resolve(binder_type)`. -/
structure WrapperInfo where
  cls : BClass
  origBaseArg : Option PyType := none
  nameAttr : Option String := none
  diSingleton : Option BBinder := none

/-- The registries and the DI container consumed by normalization.py,
modelled abstractly (they live in bindings.py / rodi, outside the analysed
sources): `Binder.aliases` membership and factory results, `Binder.handlers`
membership and classes, service-container membership by name and by type,
and the `BoundValue` wrapper registry. -/
structure Env where
  alias_names : String → Bool
  alias_binder : String → BBinder
  handler_types : PyType → Bool
  handler_cls : PyType → BClass
  service_names : String → Bool
  service_types : PyType → Bool
  wrappers : String → WrapperInfo

/-- A function object, tracking the wrappers produced by normalization.
Because every synthesized wrapper is declared with `functools.wraps(method)`,
`Signature.from_callable` (which follows `__wrapped__`) and `get_type_hints`
(which reads the copied `__annotations__`) report the signature of the
innermost wrapped function; this is captured by `sigOf` below. -/
inductive Func where
  | base (sig : FuncSig)
  | wrapZero (inner : Func)
  | wrapBinders (inner : Func) (binders : List BinderOrSentinel)
  | wrapAsyncgenZero (inner : Func)
  | wrapAsyncgenReq (inner : Func)
  | wrapAsyncgenBinders (inner : Func) (binders : List BinderOrSentinel)
deriving DecidableEq

/-- The signature observed for a callable through `Signature.from_callable`
and `get_type_hints`: wrappers produced with `functools.wraps` expose the
wrapped function's signature and annotations. -/
def sigOf : Func → FuncSig
  | .base s => s
  | .wrapZero f => sigOf f
  | .wrapBinders f _ => sigOf f
  | .wrapAsyncgenZero f => sigOf f
  | .wrapAsyncgenReq f => sigOf f
  | .wrapAsyncgenBinders f _ => sigOf f

/-- Model of `inspect.iscoroutinefunction`: it inspects the code object of the
function itself (it does not follow `__wrapped__`), so every synthesized
wrapper (a genuine `async def`) is a coroutine function, while a base
function is one exactly when it was declared `async def` without `yield`. -/
def is_coroutine_fn : Func → Bool
  | .base s => s.fkind == FKind.coroutineFn
  | _ => true

/-- Model of `inspect.isasyncgenfunction` (wrappers are plain coroutines). -/
def is_asyncgen_fn : Func → Bool
  | .base s => s.fkind == FKind.asyncgenFn
  | _ => false

/-- A route as consumed by normalization: its declared path parameter names
and its current handler. -/
structure Route where
  param_names : List String
  handler : Func
deriving DecidableEq

/-- The `Request` annotation. -/
def pyRequest : PyType := .named "Request"

/-- The `WebSocket` annotation. -/
def pyWebSocket : PyType := .named "WebSocket"

/-- Model of the module-level `_types_handled_with_query` set: the annotations
bound from the query string as "simple" types (the lowercase `list[...]` /
`tuple[...]` aliases are distinct Python objects from `List[...]` /
`Tuple[...]` and are listed separately, as in the source). -/
def types_handled_with_query : List PyType :=
  [PyType.named "str", .named "int", .named "float", .named "bool",
   .named "list", .named "set", .named "tuple",
   .generic "List" [.named "str"], .generic "List" [.named "int"],
   .generic "List" [.named "float"], .generic "List" [.named "bool"],
   .generic "Sequence" [.named "str"], .generic "Sequence" [.named "int"],
   .generic "Sequence" [.named "float"], .generic "Sequence" [.named "bool"],
   .generic "Set" [.named "str"], .generic "Set" [.named "int"],
   .generic "Set" [.named "float"], .generic "Set" [.named "bool"],
   .generic "Tuple" [.named "str"], .generic "Tuple" [.named "int"],
   .generic "Tuple" [.named "float"], .generic "Tuple" [.named "bool"],
   .named "UUID", .generic "List" [.named "UUID"], .generic "Set" [.named "UUID"],
   .generic "Tuple" [.named "UUID"],
   .generic "list" [.named "str"], .generic "list" [.named "int"],
   .generic "list" [.named "float"], .generic "list" [.named "bool"],
   .generic "list" [.named "UUID"],
   .generic "tuple" [.named "str"], .generic "tuple" [.named "int"],
   .generic "tuple" [.named "float"], .generic "tuple" [.named "bool"]]

/-- The error message built by `_check_union` for unsupported unions. -/
def union_err_msg (pname mname : String) : String :=
  "Unsupported parameter type \"" ++ pname ++ "\" for method \"" ++ mname ++
  "\"; only Optional types are supported for automatic binding. " ++
  "Read the desired value from the request itself."

/-- First element of the union arguments that is not `NoneType` (the `for`
loop of `_check_union`). -/
def first_non_none : List PyType → Option PyType
  | [] => none
  | t :: rest => if t = PyType.noneType then first_non_none rest else some t

/-- Model of `_check_union`: unwraps `Optional[T]` (a union of exactly `T`
and `NoneType`) returning `(true, T)`; raises `NormalizationError` for every
other union; leaves non-union annotations untouched. -/
def check_union (pname mname : String) : PyType → Except NormErr (Bool × PyType)
  | .union args =>
    if PyType.noneType ∉ args ∨ 2 < args.length then
      .error (.normalizationErr (union_err_msg pname mname))
    else
      match first_non_none args with
      | some t => .ok (true, t)
      | none => .ok (false, .union args)
  | t => .ok (false, t)

/-- Model of `_is_bound_value_annotation`: true for a `BoundValue` subclass or
a generic alias whose origin subclasses `BoundValue`. -/
def is_bound_value_annot : PyType → Bool
  | .bound _ _ => true
  | _ => false

/-- Model of `_get_raw_bound_value_type`: the `__args__` entry of the generic
alias, else the argument of `__orig_bases__`, else `str`. -/
def get_raw_bound_value_type (env : Env) : PyType → PyType
  | .bound _ (some t) => t
  | .bound w none =>
    match (env.wrappers w).origBaseArg with
    | some t => t
    | none => .named "str"
  | _ => .named "str"

/-- The wrapper class name of a `BoundValue` annotation. -/
def wrapper_of : PyType → String
  | .bound w _ => w
  | _ => ""

/-- Model of `isinstance(binder, RouteBinder)`. -/
def is_route_binder (b : BBinder) : Bool :=
  match b.kind with
  | .route => true
  | .wrapperCls c => c.is_route
  | .handlerCls c => c.is_route
  | .aliasCls c => c.is_route
  | _ => false

/-- Model of `isinstance(binder, BodyBinder)`. -/
def is_body_binder (b : BBinder) : Bool :=
  match b.kind with
  | .wrapperCls c => c.is_body
  | .handlerCls c => c.is_body
  | .aliasCls c => c.is_body
  | _ => false

/-- Model of `annotation.__class__.__name__` (the metaclass name used as the
service key by the service tier of `_get_parameter_binder`). -/
def annot_cls_name : PyType → String
  | .named _ => "type"
  | .noneType => "type"
  | .bound _ none => "type"
  | _ => "_GenericAlias"

/-- Whether the (optional) route declares a path parameter with this name. -/
def route_has_param (route : Option Route) (name : String) : Bool :=
  match route with
  | some r => r.param_names.contains name
  | none => false

/-- Model of `_get_parameter_binder_without_annotation`: route path segment
(as `str`), then service by name, then query string as `List[str]`. -/
def get_parameter_binder_without_annot (env : Env) (route : Option Route)
    (name : String) : BBinder :=
  if route_has_param route name then
    { kind := .route, expected_type := .named "str", param_name := name, implicit := true }
  else if env.service_names name then
    -- ServiceBinder(name, name, True, services): the service is keyed by the
    -- parameter name string; the string key is modelled as a named type.
    { kind := .service, expected_type := .named name, param_name := name, implicit := true }
  else
    { kind := .query, expected_type := .generic "List" [.named "str"], param_name := name,
      implicit := true }

/-- Model of the `BoundValue` branch of `_get_parameter_binder`: unwrap the
inner type (applying Optional-unwrap again), compute the source name from the
wrapper's `name` attribute, instantiate the binder class (or reconfigure the
DI singleton), set `required`/`root_required`, and check route-sourced
binders against the route's parameter names. -/
def bound_value_path (env : Env) (route : Option Route) (mname pname0 : String)
    (is_root_optional : Bool) (annot : PyType) : Except NormErr BBinder :=
  let winfo := env.wrappers (wrapper_of annot)
  match check_union pname0 mname (get_raw_bound_value_type env annot) with
  | .error e => .error e
  | .ok (is_optional, expected) =>
    let pname := (winfo.nameAttr).getD pname0
    let b0 : BBinder :=
      match winfo.diSingleton with
      | some s => { s with expected_type := expected, param_name := pname }
      | none => { kind := .wrapperCls winfo.cls, expected_type := expected,
                  param_name := pname, implicit := false }
    let b1 : BBinder := { b0 with required := !is_optional }
    let b2 : BBinder := if is_root_optional then { b1 with root_required := false } else b1
    match route with
    | some r =>
      if is_route_binder b2 && !(r.param_names.contains pname) then
        .error (.routeBinderMismatch pname)
      else .ok b2
    | none => .ok b2

/-- The tiers of `_get_parameter_binder` applied after the Optional unwrap:
global type handler, `BoundValue` wrapper, route path segment, service by
type, simple query-string type, `User`/`Identity`, else
`ValueError("No matching binder.")`. -/
def get_parameter_binder_after_union (env : Env) (route : Option Route)
    (mname name : String) (is_root_optional : Bool) (annot : PyType) :
    Except NormErr BBinder :=
  if env.handler_types annot && !(env.service_types annot) &&
      !(is_bound_value_annot annot) then
    .ok { kind := .handlerCls (env.handler_cls annot), expected_type := annot,
          param_name := name }
  else if is_bound_value_annot annot then
    bound_value_path env route mname name is_root_optional annot
  else if route_has_param route name then
    .ok { kind := .route, expected_type := annot, param_name := name, implicit := true }
  else if env.service_types annot then
    .ok { kind := .service, expected_type := annot, param_name := annot_cls_name annot,
          implicit := true }
  else if annot ∈ types_handled_with_query then
    .ok { kind := .query, expected_type := annot, param_name := name, implicit := true,
          required := !is_root_optional }
  else if annot = .named "User" ∨ annot = .named "Identity" then
    .ok { kind := .identity, expected_type := annot, param_name := name, implicit := true,
          required := !is_root_optional }
  else .error (.valueError "No matching binder.")

/-- The annotated path of `_get_parameter_binder`: the Optional unwrap by
`_check_union` followed by the annotated tiers. -/
def get_parameter_binder_annotated (env : Env) (route : Option Route)
    (mname name : String) (a : PyType) : Except NormErr BBinder :=
  match check_union name mname a with
  | .error e => .error e
  | .ok (iro, a2) => get_parameter_binder_after_union env route mname name iro a2

/-- Model of `_get_parameter_binder`: reserved alias tier, unannotated tier,
then Optional unwrap followed by the annotated tiers. -/
def get_parameter_binder_core (env : Env) (route : Option Route) (mname : String)
    (p : Param) : Except NormErr BBinder :=
  if env.alias_names p.name then .ok (env.alias_binder p.name)
  else
    match p.annot with
    | none => .ok (get_parameter_binder_without_annot env route p.name)
    | some a => get_parameter_binder_annotated env route mname p.name a

/-- Model of `get_parameter_binder`: resolve the binder and attach the
parameter's declared default (`none` models the `empty` sentinel). -/
def get_parameter_binder (env : Env) (route : Option Route) (mname : String)
    (p : Param) : Except NormErr BBinder :=
  match get_parameter_binder_core env route mname p with
  | .error e => .error e
  | .ok b => .ok { b with default := p.default }

/-- Whether a middleware parameter name designates the downstream
continuation (`parameter_name in set-of handler, next_handler`). -/
def is_continuation_param (p : Param) : Bool :=
  p.name == "handler" || p.name == "next_handler"

/-- The loop body of `_get_binders_for_function`: substitute the
`_next_handler_binder` sentinel for continuation parameters when no route is
given (middleware case), resolve every other parameter, and reject a second
`BodyBinder` with `AmbiguousMethodSignatureError`. -/
def binders_loop (env : Env) (route : Option Route) (mname : String) :
    List Param → Bool → Except NormErr (List BinderOrSentinel)
  | [], _ => .ok []
  | p :: rest, seen =>
    if route.isNone && is_continuation_param p then
      match binders_loop env route mname rest seen with
      | .ok bs => .ok (.sentinel :: bs)
      | .error e => .error e
    else
      match get_parameter_binder env route mname p with
      | .error e => .error e
      | .ok b =>
        if is_body_binder b then
          if seen then .error .ambiguousMethodSignature
          else
            match binders_loop env route mname rest true with
            | .ok bs => .ok (.real b :: bs)
            | .error e => .error e
        else
          match binders_loop env route mname rest seen with
          | .ok bs => .ok (.real b :: bs)
          | .error e => .error e

/-- Model of `_get_binders_for_function`. -/
def get_binders_for_function (env : Env) (route : Option Route) (m : Func) :
    Except NormErr (List BinderOrSentinel) :=
  binders_loop env route (sigOf m).name (sigOf m).params false

/-- Model of `get_binders_for_middleware` (no route). -/
def get_binders_for_middleware (env : Env) (m : Func) :
    Except NormErr (List BinderOrSentinel) :=
  get_binders_for_function env none m

/-- Model of `str(param).startswith("*")`: true exactly for `*args` and
`**kwargs` parameters. -/
def param_str_starts_star : PKind → Bool
  | .varPositional => true
  | .varKeyword => true
  | _ => false

/-- Model of `get_async_wrapper`: zero parameters produce the no-argument
wrapper; a single parameter annotated exactly `Request` or `WebSocket`
returns the method itself (fast path, before any binder synthesis);
otherwise binders are synthesized and the binder wrapper is produced. -/
def get_async_wrapper (env : Env) (route : Route) (method : Func) :
    Except NormErr Func :=
  match (sigOf method).params with
  | [] => .ok (.wrapZero method)
  | [p] =>
    if p.annot = some pyRequest ∨ p.annot = some pyWebSocket then .ok method
    else
      match get_binders_for_function env (some route) method with
      | .ok bs => .ok (.wrapBinders method bs)
      | .error e => .error e
  | _ =>
    match get_binders_for_function env (some route) method with
    | .ok bs => .ok (.wrapBinders method bs)
    | .error e => .error e

/-- Model of `get_async_wrapper_for_asyncgen` (the streaming wrapper defined
by the module; the `response_type` factory only affects the response object
built at request time and is omitted from the structural model). -/
def get_async_wrapper_for_asyncgen (env : Env) (route : Route) (method : Func) :
    Except NormErr Func :=
  match (sigOf method).params with
  | [] => .ok (.wrapAsyncgenZero method)
  | [p] =>
    if p.name == "request" || decide (p.annot = some pyRequest) then
      .ok (.wrapAsyncgenReq method)
    else
      match get_binders_for_function env (some route) method with
      | .ok bs => .ok (.wrapAsyncgenBinders method bs)
      | .error e => .error e
  | _ =>
    match get_binders_for_function env (some route) method with
    | .ok bs => .ok (.wrapAsyncgenBinders method bs)
    | .error e => .error e

/-- Model of `normalize_handler`: reject variadic / keyword-only parameters
with `UnsupportedSignatureError`; then wrap coroutine functions through
`get_async_wrapper` and reject every non-coroutine handler (async generator
functions included) with `TypeError`.  The attribute side effects
(`return_type`, `root_fn`, `copy_special_attributes`) do not change the
returned function object and are omitted. -/
def normalize_handler (env : Env) (route : Route) : Except NormErr Func :=
  let method := route.handler
  if (sigOf method).params.any
      (fun p => param_str_starts_star p.kind || p.kind == PKind.keywordOnly) then
    .error .unsupportedSignature
  else if is_coroutine_fn method then
    get_async_wrapper env route method
  else
    .error (.typeError "Sync function not allowed as handler!")

/-- Model of `_is_basic_middleware_signature`: exactly two parameters named
`request` and `handler` (or `next_handler`), checked by name and position
only. -/
def is_basic_middleware_signature (params : List Param) : Bool :=
  match params with
  | [a, b] => a.name == "request" && (b.name == "handler" || b.name == "next_handler")
  | _ => false

/-- The result of middleware normalization: the middleware itself (basic
signature pass-through) or the wrapper produced by
`_get_middleware_async_binder` holding the binder list. -/
inductive MWNorm where
  | unchanged (m : Func)
  | wrapped (m : Func) (binders : List BinderOrSentinel)
deriving DecidableEq

/-- Model of `normalize_middleware`: reject non-coroutine middlewares with
`ValueError`; pass the basic `(request, handler)` shape through unchanged;
otherwise synthesize binders with the `_next_handler_binder` sentinel. -/
def normalize_middleware (env : Env) (mw : Func) : Except NormErr MWNorm :=
  if !(is_coroutine_fn mw) then
    .error (.valueError "Middlewares must be asynchronous functions")
  else if is_basic_middleware_signature (sigOf mw).params then
    .ok (.unchanged mw)
  else
    match get_binders_for_middleware env mw with
    | .ok bs => .ok (.wrapped mw bs)
    | .error e => .error e

/-- Is this list entry the `_next_handler_binder` sentinel? -/
def is_sentinel : BinderOrSentinel → Bool
  | .sentinel => true
  | .real _ => false

/-- Denotational model of one invocation of the wrapper produced by
`_get_middleware_async_binder`: the positional values passed to the
middleware (the `next_handler` continuation at sentinel positions, the
binder's resolved value elsewhere) and whether the wrapper itself invokes
`next_handler(request)` after awaiting the middleware (which it does exactly
when the sentinel does not occur among the binders). -/
structure MWCall where
  args : List PyVal
  wrapper_calls_next : Bool
deriving DecidableEq

/-- Run the synthesized middleware wrapper on one request, given the value
each real binder resolves to and the value representing the downstream
continuation. -/
def run_middleware_wrapper (binders : List BinderOrSentinel)
    (resolve : BBinder → PyVal) (next_value : PyVal) : MWCall :=
  { args := binders.map (fun b =>
      match b with
      | .sentinel => next_value
      | .real bb => resolve bb),
    wrapper_calls_next := !(binders.any is_sentinel) }

/-- Model of the `Application` state relevant to normalization: the route
table and the `started` flag. -/
structure App where
  routes : List Route
  started : Bool

/-- Model of `Application.normalize_handlers`: replace every route's handler
with its normalized form, propagating the first normalization error.  (The
`configured_handlers` set only skips a route object listed under several HTTP
methods within one call; the model iterates each route once.) -/
def normalize_handlers (env : Env) : List Route → Except NormErr (List Route)
  | [] => .ok []
  | r :: rest =>
    match normalize_handler env r with
    | .error e => .error e
    | .ok h =>
      match normalize_handlers env rest with
      | .error e => .error e
      | .ok rest2 => .ok ({ r with handler := h } :: rest2)

/-- Model of `Application.start`: a second start is a no-op thanks to the
`started` guard; a first start sets the flag and normalizes all handlers. -/
def App.start (env : Env) (app : App) : Except NormErr App :=
  if app.started then .ok app
  else
    match normalize_handlers env app.routes with
    | .error e => .error e
    | .ok rs => .ok { routes := rs, started := true }

/-- An environment with empty registries and an empty service container. -/
def env0 : Env :=
  { alias_names := fun _ => false,
    alias_binder := fun _ =>
      { kind := .query, expected_type := .named "str", param_name := "" },
    handler_types := fun _ => false,
    handler_cls := fun _ => { cname := "Binder" },
    service_names := fun _ => false,
    service_types := fun _ => false,
    wrappers := fun _ => { cls := { cname := "Binder" } } }

/-- Whether an `Except` value is a success. -/
def ex_ok {ε α : Type} : Except ε α → Bool
  | .ok _ => true
  | .error _ => false

/-- Number of real Binder instances in a binder list (the sentinel entries
excluded). -/
def real_count (bs : List BinderOrSentinel) : Nat :=
  (bs.filter (fun b => !(is_sentinel b))).length

/-- Whether `_get_binders_for_function` satisfies this parameter by the
implicit sentinel substitution instead of resolving a Binder. -/
def param_skipped (route : Option Route) (p : Param) : Bool :=
  route.isNone && is_continuation_param p

/-- Number of parameters satisfied by the sentinel substitution. -/
def substituted_count (route : Option Route) (params : List Param) : Nat :=
  (params.filter (fun p => param_skipped route p)).length

/-- Whether a (non-substituted) parameter resolves to a `BodyBinder`. -/
def param_body_ok (env : Env) (route : Option Route) (mn : String) (p : Param) : Bool :=
  match get_parameter_binder env route mn p with
  | .ok b => is_body_binder b
  | .error _ => false

/-- Number of declared parameters resolving to a `BodyBinder`. -/
def body_count (env : Env) (route : Option Route) (mn : String)
    (params : List Param) : Nat :=
  (params.filter (fun p => !(param_skipped route p) && param_body_ok env route mn p)).length

/-- Substring test on character lists (used to state whether an error message
names a parameter). -/
def seg_pref : List Char → List Char → Bool
  | [], _ => true
  | _ :: _, [] => false
  | a :: as2, b :: bs2 => a == b && seg_pref as2 bs2

/-- Does the second character list contain the first as a contiguous segment? -/
def mentions_sub (needle : List Char) : List Char → Bool
  | [] => seg_pref needle []
  | c :: rest => seg_pref needle (c :: rest) || mentions_sub needle rest

/- Concrete fixtures used by the witnesses and counterexamples below. -/

/-- A coroutine handler declaring a single positional parameter annotated
`Request` (the canonical fast-path shape). -/
def h_req : Func :=
  .base { name := "h", fkind := .coroutineFn,
          params := [{ name := "request", kind := .positionalOrKeyword,
                       annot := some pyRequest }] }

/-- A route whose handler is `h_req`. -/
def r_req : Route := { param_names := [], handler := h_req }

/-- A coroutine handler declaring a single KEYWORD-ONLY parameter annotated
`Request` (models `async def h(*, request: Request)`). -/
def h_kwonly : Func :=
  .base { name := "h2", fkind := .coroutineFn,
          params := [{ name := "request", kind := .keywordOnly,
                       annot := some pyRequest }] }

/-- A route whose handler is `h_kwonly`. -/
def r_kwonly : Route := { param_names := [], handler := h_kwonly }

/-- A coroutine middleware declaring only `*args` (models
`async def mw(*args)`). -/
def mw_star : Func :=
  .base { name := "mw", fkind := .coroutineFn,
          params := [{ name := "args", kind := .varPositional, annot := none }] }

/-- The query binder that `normalize_middleware` synthesizes for the `args`
parameter of `mw_star`. -/
def qb_args : BBinder :=
  { kind := .query, expected_type := .generic "List" [.named "str"],
    param_name := "args", implicit := true }

/-- A basic-shape coroutine middleware `(request, handler)`. -/
def mw_basic : Func :=
  .base { name := "mw1", fkind := .coroutineFn,
          params := [{ name := "request", kind := .positionalOrKeyword, annot := none },
                     { name := "handler", kind := .positionalOrKeyword, annot := none }] }

/-- A parameter whose annotation matches no binder-resolution tier. -/
def p_special : Param :=
  { name := "special_param", kind := .positionalOrKeyword,
    annot := some (.named "Widget") }

/-- A zero-parameter coroutine handler. -/
def h_zero : Func := .base { name := "home", params := [], fkind := .coroutineFn }

/-- A `BodyBinder` subclass (e.g. the JSON body binder bound to the
`FromJSON` wrapper). -/
def body_cls : BClass := { cname := "JSONBinder", is_body := true }

/-- An environment registering the `FromJSON` bound-value wrapper with a
body binder class. -/
def envBody : Env :=
  { env0 with
    wrappers := fun w =>
      if w = "FromJSON" then { cls := body_cls } else { cls := { cname := "Binder" } } }

/-- First parameter annotated with the body wrapper `FromJSON[str]`. -/
def p_body1 : Param :=
  { name := "a", kind := .positionalOrKeyword,
    annot := some (.bound "FromJSON" (some (.named "str"))) }

/-- Second parameter annotated with the body wrapper `FromJSON[int]`. -/
def p_body2 : Param :=
  { name := "b", kind := .positionalOrKeyword,
    annot := some (.bound "FromJSON" (some (.named "int"))) }

/-- A parameter annotated with the unsupported union `int | str`. -/
def p_union : Param :=
  { name := "x", kind := .positionalOrKeyword,
    annot := some (.union [.named "int", .named "str"]) }

/-- An unannotated parameter named `id`. -/
def p_id : Param := { name := "id", kind := .positionalOrKeyword, annot := none }

/-- A route declaring the path parameter `id` (e.g. `/items/:id`). -/
def r_id : Route := { param_names := ["id"], handler := h_zero }

/-- An async generator handler (models
`async def stream(data: str) -> AsyncIterable[int]: yield ...`). -/
def h_agen : Func :=
  .base { name := "stream", fkind := .asyncgenFn,
          params := [{ name := "data", kind := .positionalOrKeyword,
                       annot := some (.named "str") }] }

/-- A route whose handler is the async generator `h_agen`. -/
def r_agen : Route := { param_names := [], handler := h_agen }

/-- A non-basic coroutine middleware `(request, handler, extra)` mixing a
real parameter with a continuation parameter. -/
def mw_mix : Func :=
  .base { name := "mw2", fkind := .coroutineFn,
          params := [{ name := "request", kind := .positionalOrKeyword, annot := none },
                     { name := "handler", kind := .positionalOrKeyword, annot := none },
                     { name := "extra", kind := .positionalOrKeyword, annot := none }] }

/-- The binder list synthesized for `mw_mix` in the empty environment: query
binders for `request` and `extra`, the sentinel for `handler`. -/
def mw_mix_binders : List BinderOrSentinel :=
  [.real { kind := .query, expected_type := .generic "List" [.named "str"],
           param_name := "request", implicit := true },
   .sentinel,
   .real { kind := .query, expected_type := .generic "List" [.named "str"],
           param_name := "extra", implicit := true }]

/-- A coroutine handler declaring two body-wrapped parameters. -/
def h_two_body : Func :=
  .base { name := "m", fkind := .coroutineFn, params := [p_body1, p_body2] }

/-- A coroutine handler with two parameters, the first of which matches no
resolution tier. -/
def h_bad : Func :=
  .base { name := "handler_fn", fkind := .coroutineFn,
          params := [p_special,
                     { name := "q", kind := .positionalOrKeyword, annot := none }] }

/-- A route whose handler cannot be normalized (binder resolution fails). -/
def r_bad : Route := { param_names := [], handler := h_bad }

/- Helper lemmas shared by the claim theorems. -/

/-- A non-union annotation passes `_check_union` untouched. -/
theorem check_union_non_union (pn mn : String) (a : PyType)
    (h : ∀ args, a ≠ PyType.union args) :
    check_union pn mn a = .ok (false, a) := by
  cases a with
  | union args => exact absurd rfl (h args)
  | named n => rfl
  | noneType => rfl
  | generic o as2 => rfl
  | bound w i => rfl

/-- The only exception `_check_union` raises is `NormalizationError`. -/
theorem check_union_err_shape (pn mn : String) (t : PyType) (e : NormErr)
    (h : check_union pn mn t = .error e) : ∃ m, e = .normalizationErr m := by
  cases t with
  | union args =>
    rw [check_union] at h
    split at h
    · cases h
      exact ⟨union_err_msg pn mn, rfl⟩
    · split at h <;> cases h
  | named n => cases h
  | noneType => cases h
  | generic o as2 => cases h
  | bound w i => cases h

/-- The `BoundValue` branch never raises `UnsupportedSignatureError`. -/
theorem bound_value_path_not_unsupported (env : Env) (route : Option Route)
    (mname pname0 : String) (iro : Bool) (annot : PyType) :
    bound_value_path env route mname pname0 iro annot ≠ .error .unsupportedSignature := by
  intro hh
  rw [bound_value_path] at hh
  split at hh
  · rename_i e hcu
    cases hh
    obtain ⟨m, hm⟩ := check_union_err_shape _ _ _ _ hcu
    cases hm
  · rename_i is_opt expected hcu
    cases route with
    | none => simp at hh
    | some r =>
      simp only [] at hh
      split at hh <;> (try split at hh) <;> simp at hh

/-- Any error of the annotated resolution tiers is a `NormalizationError`,
a `RouteBinderMismatch` or the final `ValueError` - never
`UnsupportedSignatureError`. -/
theorem get_parameter_binder_annotated_err_shape (env : Env) (route : Option Route)
    (mn name : String) (a : PyType) (e : NormErr)
    (hc : get_parameter_binder_annotated env route mn name a = .error e) :
    e ≠ NormErr.unsupportedSignature := by
  rw [get_parameter_binder_annotated] at hc
  split at hc
  · rename_i e2 hcu
    cases hc
    obtain ⟨m, hm⟩ := check_union_err_shape _ _ _ _ hcu
    subst hm
    simp
  · rename_i iro a2 hcu
    rw [get_parameter_binder_after_union] at hc
    split at hc
    · cases hc
    · split at hc
      · intro hh
        subst hh
        exact bound_value_path_not_unsupported env route mn name iro a2 hc
      · split at hc
        · cases hc
        · split at hc
          · cases hc
          · split at hc
            · cases hc
            · split at hc
              · cases hc
              · cases hc
                simp

/-- Binder resolution for one parameter never raises
`UnsupportedSignatureError` (that exception is raised only by
`normalize_handler`'s signature check). -/
theorem get_parameter_binder_not_unsupported (env : Env) (route : Option Route)
    (mn : String) (p : Param) :
    get_parameter_binder env route mn p ≠ .error .unsupportedSignature := by
  rw [get_parameter_binder]
  cases hc : get_parameter_binder_core env route mn p with
  | ok b => simp
  | error e =>
    simp only
    intro hh
    cases hh
    rw [get_parameter_binder_core] at hc
    split at hc
    · cases hc
    · split at hc
      · cases hc
      · exact get_parameter_binder_annotated_err_shape env route mn p.name _ _ hc rfl

/-- The binder synthesis loop never raises `UnsupportedSignatureError`. -/
theorem binders_loop_not_unsupported (env : Env) (route : Option Route) (mn : String) :
    ∀ (params : List Param) (seen : Bool),
      binders_loop env route mn params seen ≠ .error .unsupportedSignature := by
  intro params
  induction params with
  | nil =>
    intro seen
    rw [binders_loop]
    simp
  | cons p rest ih =>
    intro seen
    rw [binders_loop]
    by_cases hskip : (route.isNone && is_continuation_param p) = true
    · rw [if_pos hskip]
      cases hrec : binders_loop env route mn rest seen with
      | ok bs => simp
      | error e =>
        simp only
        intro hh
        cases hh
        exact ih seen hrec
    · rw [if_neg hskip]
      cases hb : get_parameter_binder env route mn p with
      | error e =>
        simp only
        intro hh
        cases hh
        exact get_parameter_binder_not_unsupported env route mn p hb
      | ok b =>
        simp only
        by_cases hbody : is_body_binder b = true
        · rw [if_pos hbody]
          cases seen with
          | true => simp
          | false =>
            cases hrec : binders_loop env route mn rest true with
            | ok bs => simp
            | error e =>
              simp only
              intro hh
              cases hh
              exact ih true hrec
        · rw [if_neg hbody]
          cases hrec : binders_loop env route mn rest seen with
          | ok bs => simp
          | error e =>
            simp only
            intro hh
            cases hh
            exact ih seen hrec

/-- Unfolding equation of the synthesis loop: sentinel substitution. -/
theorem binders_loop_cons_skip (env : Env) (route : Option Route) (mn : String)
    (p : Param) (rest : List Param) (seen : Bool)
    (h : (route.isNone && is_continuation_param p) = true) :
    binders_loop env route mn (p :: rest) seen =
      match binders_loop env route mn rest seen with
      | .ok bs => .ok (.sentinel :: bs)
      | .error e => .error e := by
  rw [binders_loop, if_pos h]

/-- Unfolding equation of the synthesis loop: failing parameter resolution. -/
theorem binders_loop_cons_err (env : Env) (route : Option Route) (mn : String)
    (p : Param) (rest : List Param) (seen : Bool) (e : NormErr)
    (hskip : (route.isNone && is_continuation_param p) = false)
    (hb : get_parameter_binder env route mn p = .error e) :
    binders_loop env route mn (p :: rest) seen = .error e := by
  rw [binders_loop, if_neg (by simp [hskip]), hb]

/-- Unfolding equation of the synthesis loop: a second body binder. -/
theorem binders_loop_cons_body_seen (env : Env) (route : Option Route) (mn : String)
    (p : Param) (rest : List Param) (b : BBinder)
    (hskip : (route.isNone && is_continuation_param p) = false)
    (hb : get_parameter_binder env route mn p = .ok b)
    (hbody : is_body_binder b = true) :
    binders_loop env route mn (p :: rest) true = .error .ambiguousMethodSignature := by
  rw [binders_loop, if_neg (by simp [hskip]), hb]
  simp [hbody]

/-- Unfolding equation of the synthesis loop: the first body binder. -/
theorem binders_loop_cons_body_new (env : Env) (route : Option Route) (mn : String)
    (p : Param) (rest : List Param) (b : BBinder)
    (hskip : (route.isNone && is_continuation_param p) = false)
    (hb : get_parameter_binder env route mn p = .ok b)
    (hbody : is_body_binder b = true) :
    binders_loop env route mn (p :: rest) false =
      match binders_loop env route mn rest true with
      | .ok bs => .ok (.real b :: bs)
      | .error e => .error e := by
  rw [binders_loop, if_neg (by simp [hskip]), hb]
  simp [hbody]

/-- Unfolding equation of the synthesis loop: a non-body binder. -/
theorem binders_loop_cons_nonbody (env : Env) (route : Option Route) (mn : String)
    (p : Param) (rest : List Param) (seen : Bool) (b : BBinder)
    (hskip : (route.isNone && is_continuation_param p) = false)
    (hb : get_parameter_binder env route mn p = .ok b)
    (hbody : is_body_binder b = false) :
    binders_loop env route mn (p :: rest) seen =
      match binders_loop env route mn rest seen with
      | .ok bs => .ok (.real b :: bs)
      | .error e => .error e := by
  rw [binders_loop, if_neg (by simp [hskip]), hb]
  simp [hbody]

/-- Structure of a successful binder synthesis: the produced entries
correspond one-to-one, in order, to the declared parameters, with the
sentinel exactly at the substituted positions. -/
theorem binders_loop_ok_shape (env : Env) (route : Option Route) (mn : String) :
    ∀ (params : List Param) (seen : Bool) (bs : List BinderOrSentinel),
      binders_loop env route mn params seen = .ok bs →
      List.Forall₂ (fun (b : BinderOrSentinel) (p : Param) =>
        is_sentinel b = param_skipped route p) bs params := by
  intro params
  induction params with
  | nil =>
    intro seen bs h
    rw [binders_loop] at h
    cases h
    exact List.Forall₂.nil
  | cons p rest ih =>
    intro seen bs h
    by_cases hskip : (route.isNone && is_continuation_param p) = true
    · rw [binders_loop_cons_skip env route mn p rest seen hskip] at h
      cases hrec : binders_loop env route mn rest seen with
      | error e => rw [hrec] at h; cases h
      | ok bs2 =>
        rw [hrec] at h
        cases h
        exact List.Forall₂.cons (by simp [is_sentinel, param_skipped, hskip])
          (ih seen bs2 hrec)
    · rw [Bool.not_eq_true] at hskip
      have hskipf : param_skipped route p = false := hskip
      cases hb : get_parameter_binder env route mn p with
      | error e =>
        rw [binders_loop_cons_err env route mn p rest seen e hskip hb] at h
        cases h
      | ok b =>
        by_cases hbody : is_body_binder b = true
        · cases seen with
          | true =>
            rw [binders_loop_cons_body_seen env route mn p rest b hskip hb hbody] at h
            cases h
          | false =>
            rw [binders_loop_cons_body_new env route mn p rest b hskip hb hbody] at h
            cases hrec : binders_loop env route mn rest true with
            | error e => rw [hrec] at h; cases h
            | ok bs2 =>
              rw [hrec] at h
              cases h
              exact List.Forall₂.cons (by simp [is_sentinel, hskipf])
                (ih true bs2 hrec)
        · rw [Bool.not_eq_true] at hbody
          rw [binders_loop_cons_nonbody env route mn p rest seen b hskip hb hbody] at h
          cases hrec : binders_loop env route mn rest seen with
          | error e => rw [hrec] at h; cases h
          | ok bs2 =>
            rw [hrec] at h
            cases h
            exact List.Forall₂.cons (by simp [is_sentinel, hskipf])
              (ih seen bs2 hrec)

/-- Counting consequence of the shape: as many entries as parameters, and as
many real binders as parameters minus substituted parameters. -/
theorem counts_of_shape (route : Option Route) :
    ∀ {bs : List BinderOrSentinel} {params : List Param},
      List.Forall₂ (fun (b : BinderOrSentinel) (p : Param) =>
        is_sentinel b = param_skipped route p) bs params →
      bs.length = params.length ∧
      real_count bs = params.length - substituted_count route params := by
  intro bs params h
  induction h with
  | nil => simp [real_count, substituted_count]
  | @cons b p bs2 ps2 hbp hrel ih =>
    obtain ⟨ihlen, ihrc⟩ := ih
    have hle : substituted_count route ps2 ≤ ps2.length :=
      List.length_filter_le _ _
    refine ⟨by simp [ihlen], ?_⟩
    cases hs : param_skipped route p with
    | true =>
      rw [hs] at hbp
      cases b with
      | real bb => simp [is_sentinel] at hbp
      | sentinel =>
        simp only [real_count, substituted_count, List.filter, hs, is_sentinel,
          Bool.not_true, List.length_cons] at *
        omega
    | false =>
      rw [hs] at hbp
      cases b with
      | sentinel => simp [is_sentinel] at hbp
      | real bb =>
        simp only [real_count, substituted_count, List.filter, hs, is_sentinel,
          Bool.not_false, List.length_cons] at *
        omega

/-- If no parameter is a continuation parameter, the synthesized list has no
sentinel entry. -/
theorem shape_no_sentinel {route : Option Route} :
    ∀ {bs : List BinderOrSentinel} {ps : List Param},
      List.Forall₂ (fun (b : BinderOrSentinel) (p : Param) =>
        is_sentinel b = param_skipped route p) bs ps →
      (∀ p ∈ ps, is_continuation_param p = false) →
      bs.any is_sentinel = false := by
  intro bs ps h
  induction h with
  | nil => simp
  | @cons b p bs2 ps2 hbp hrel ih =>
    intro hnone
    have hp : is_continuation_param p = false := hnone p (by simp)
    have hs : param_skipped route p = false := by
      rw [param_skipped, hp, Bool.and_false]
    rw [hs] at hbp
    simp only [List.any_cons, hbp, Bool.false_or]
    exact ih (fun q hq => hnone q (by simp [hq]))

/-- Body-binder counting for the synthesis loop, generalized over the
`body_binder`-already-seen flag: when every non-substituted parameter
resolves, the loop succeeds iff at most one body binder (counting the flag)
is encountered, and otherwise raises `AmbiguousMethodSignatureError`. -/
theorem binders_loop_body_spec (env : Env) (route : Option Route) (mn : String) :
    ∀ (params : List Param) (seen : Bool),
      (∀ p ∈ params, param_skipped route p = false →
        ex_ok (get_parameter_binder env route mn p) = true) →
      ((body_count env route mn params + (if seen then 1 else 0) ≤ 1 →
          ex_ok (binders_loop env route mn params seen) = true) ∧
       (2 ≤ body_count env route mn params + (if seen then 1 else 0) →
          binders_loop env route mn params seen = .error .ambiguousMethodSignature)) := by
  intro params
  induction params with
  | nil =>
    intro seen hyp
    cases seen <;> simp [body_count, binders_loop, ex_ok]
  | cons p rest ih =>
    intro seen hyp
    have ihr := fun s => ih s (fun q hq => hyp q (List.mem_cons_of_mem p hq))
    by_cases hskip : param_skipped route p = true
    · have hcount : body_count env route mn (p :: rest) = body_count env route mn rest := by
        simp [body_count, List.filter, hskip]
      rw [binders_loop_cons_skip env route mn p rest seen hskip, hcount]
      constructor
      · intro hle
        have := (ihr seen).1 hle
        cases hrec : binders_loop env route mn rest seen with
        | error e => rw [hrec] at this; simp [ex_ok] at this
        | ok bs => simp [ex_ok]
      · intro h2
        rw [(ihr seen).2 h2]
    · rw [Bool.not_eq_true] at hskip
      have hbex := hyp p (by simp) hskip
      cases hgb : get_parameter_binder env route mn p with
      | error e => rw [hgb] at hbex; simp [ex_ok] at hbex
      | ok b =>
        have hpb : param_body_ok env route mn p = is_body_binder b := by
          rw [param_body_ok, hgb]
        by_cases hbody : is_body_binder b = true
        · have hcount : body_count env route mn (p :: rest) =
              1 + body_count env route mn rest := by
            simp [body_count, List.filter, hskip, hpb, hbody]
            omega
          cases seen with
          | true =>
            rw [binders_loop_cons_body_seen env route mn p rest b hskip hgb hbody]
            constructor
            · intro hle
              rw [hcount] at hle
              have hle2 : 1 + body_count env route mn rest + 1 ≤ 1 := hle
              exact absurd hle2 (by omega)
            · intro _
              rfl
          | false =>
            rw [binders_loop_cons_body_new env route mn p rest b hskip hgb hbody, hcount]
            constructor
            · intro hle
              have hle9 : 1 + body_count env route mn rest + 0 ≤ 1 := hle
              have := (ihr true).1
                (show body_count env route mn rest + 1 ≤ 1 by omega)
              cases hrec : binders_loop env route mn rest true with
              | error e => rw [hrec] at this; simp [ex_ok] at this
              | ok bs => simp [ex_ok]
            · intro h2
              have h29 : 2 ≤ 1 + body_count env route mn rest + 0 := h2
              rw [(ihr true).2
                (show 2 ≤ body_count env route mn rest + 1 by omega)]
        · rw [Bool.not_eq_true] at hbody
          have hcount : body_count env route mn (p :: rest) = body_count env route mn rest := by
            simp [body_count, List.filter, hskip, hpb, hbody]
          rw [binders_loop_cons_nonbody env route mn p rest seen b hskip hgb hbody, hcount]
          constructor
          · intro hle
            have := (ihr seen).1 hle
            cases hrec : binders_loop env route mn rest seen with
            | error e => rw [hrec] at this; simp [ex_ok] at this
            | ok bs => simp [ex_ok]
          · intro h2
            rw [(ihr seen).2 h2]

/-- If normalizing any route's handler fails, `normalize_handlers` fails. -/
theorem normalize_handlers_err (env : Env) :
    ∀ routes : List Route,
      (∃ r ∈ routes, ex_ok (normalize_handler env r) = false) →
      ex_ok (normalize_handlers env routes) = false := by
  intro routes
  induction routes with
  | nil =>
    intro h
    obtain ⟨r, hr, _⟩ := h
    cases hr
  | cons r rest ih =>
    intro h
    rw [normalize_handlers]
    cases hr : normalize_handler env r with
    | error e => simp [ex_ok]
    | ok f =>
      obtain ⟨r2, hr2, hfail⟩ := h
      rcases List.mem_cons.mp hr2 with rfl | hmem
      · rw [hr] at hfail
        simp [ex_ok] at hfail
      · have hrec := ih ⟨r2, hmem, hfail⟩
        cases hrest : normalize_handlers env rest with
        | error e => simp [ex_ok]
        | ok rs =>
          rw [hrest] at hrec
          simp [ex_ok] at hrec

/- Claim theorems. -/

/-- C1 counterexample: `async def h(*, request: Request)` is an asynchronous
handler declaring exactly one parameter annotated exactly `Request`, yet
normalization raises `UnsupportedSignatureError` (the keyword-only check
precedes the fast path) instead of returning the handler unchanged, so the
claim as stated fails. -/
theorem C1_fastpath_counterexample :
    normalize_handler env0 r_kwonly = .error .unsupportedSignature ∧
    normalize_handler env0 r_kwonly ≠ .ok r_kwonly.handler := by
  constructor
  · rfl
  · decide

/-- C1 (amended): for every coroutine handler declaring exactly one
POSITIONAL (positional-or-keyword or positional-only) parameter whose
annotation is exactly `Request` or `WebSocket`, `normalize_handler` returns
the original function object itself.  The statement quantifies over every
environment, so the result involves no binder synthesis: it is independent of
every registry and of the service container.  (A keyword-only or variadic
parameter instead fails the signature check, see the counterexample.) -/
theorem C1_fastpath_amended (env : Env) (route : Route) (p : Param)
    (hp : (sigOf route.handler).params = [p])
    (hk : p.kind = PKind.positionalOrKeyword ∨ p.kind = PKind.positionalOnly)
    (ha : p.annot = some pyRequest ∨ p.annot = some pyWebSocket)
    (hc : is_coroutine_fn route.handler = true) :
    normalize_handler env route = .ok route.handler := by
  have hstar : param_str_starts_star p.kind = false := by
    rcases hk with h | h <;> rw [h] <;> rfl
  have hko : (p.kind == PKind.keywordOnly) = false := by
    rcases hk with h | h <;> rw [h] <;> rfl
  simp only [normalize_handler, hp, List.any_cons, List.any_nil, hstar, hko,
    Bool.or_self, Bool.or_false, Bool.false_eq_true, if_false, hc, if_true]
  rw [get_async_wrapper, hp]
  rcases ha with h | h <;> simp [h]

/-- C1 witness: the amended theorem applied to the concrete route `r_req`
(single positional `Request` parameter) in the empty environment. -/
theorem C1_fastpath_amended_witness :
    normalize_handler env0 r_req = .ok r_req.handler :=
  C1_fastpath_amended env0 r_req
    { name := "request", kind := .positionalOrKeyword, annot := some pyRequest }
    (by decide) (Or.inl rfl) (Or.inl rfl) (by decide)

/-- C3: binder resolution for a parameter with no type annotation (whose name
is not a reserved alias - the tier the source checks before looking at the
annotation) follows exactly this order: a route binder typed `str` when the
route declares a matching path parameter; otherwise a service binder when the
container registers the name; otherwise a query-string binder typed
`List[str]`. -/
theorem C3_unannotated_resolution_order (env : Env) (route : Option Route)
    (mn : String) (p : Param)
    (halias : env.alias_names p.name = false)
    (hann : p.annot = none) :
    (route_has_param route p.name = true →
      get_parameter_binder env route mn p =
        .ok { kind := .route, expected_type := .named "str", param_name := p.name,
              implicit := true, default := p.default }) ∧
    (route_has_param route p.name = false → env.service_names p.name = true →
      get_parameter_binder env route mn p =
        .ok { kind := .service, expected_type := .named p.name, param_name := p.name,
              implicit := true, default := p.default }) ∧
    (route_has_param route p.name = false → env.service_names p.name = false →
      get_parameter_binder env route mn p =
        .ok { kind := .query, expected_type := .generic "List" [.named "str"],
              param_name := p.name, implicit := true, default := p.default }) := by
  refine ⟨?_, ?_, ?_⟩
  · intro hr
    simp [get_parameter_binder, get_parameter_binder_core, halias, hann,
      get_parameter_binder_without_annot, hr]
  · intro hr hs
    simp [get_parameter_binder, get_parameter_binder_core, halias, hann,
      get_parameter_binder_without_annot, hr, hs]
  · intro hr hs
    simp [get_parameter_binder, get_parameter_binder_core, halias, hann,
      get_parameter_binder_without_annot, hr, hs]

/-- C3 witness: the theorem applied at the route `/items/:id` with the
unannotated parameter `id`, yielding the route binder typed `str`, and at the
empty environment with no route, yielding the query binder typed `List[str]`. -/
theorem C3_unannotated_resolution_order_witness :
    get_parameter_binder env0 (some r_id) "m" p_id =
      .ok { kind := .route, expected_type := .named "str", param_name := "id",
            implicit := true, default := none } ∧
    get_parameter_binder env0 none "m" p_id =
      .ok { kind := .query, expected_type := .generic "List" [.named "str"],
            param_name := "id", implicit := true, default := none } :=
  ⟨(C3_unannotated_resolution_order env0 (some r_id) "m" p_id rfl rfl).1 (by decide),
   (C3_unannotated_resolution_order env0 none "m" p_id rfl rfl).2.2 (by decide) rfl⟩

/-- C4: a parameter annotated with a union that is not exactly one type plus
`NoneType` (no `NoneType` member, or more than two members) makes binder
resolution raise `NormalizationError`; a union of exactly one type `T` and
`NoneType` is unwrapped by `_check_union` to `(is_root_optional, T)` with
`is_root_optional = true`, and resolution continues through the annotated
tiers against `T` with the root-optional flag recorded. -/
theorem C4_union_restriction (env : Env) (route : Option Route) (mn : String)
    (p : Param) (halias : env.alias_names p.name = false) :
    (∀ args, p.annot = some (.union args) →
      (PyType.noneType ∉ args ∨ 2 < args.length) →
      get_parameter_binder env route mn p =
        .error (.normalizationErr (union_err_msg p.name mn))) ∧
    (∀ T args, p.annot = some (.union args) → T ≠ PyType.noneType →
      (args = [T, PyType.noneType] ∨ args = [PyType.noneType, T]) →
      check_union p.name mn (.union args) = .ok (true, T) ∧
      get_parameter_binder_annotated env route mn p.name (.union args) =
        get_parameter_binder_after_union env route mn p.name true T) := by
  constructor
  · intro args hann hbad
    have hcu : check_union p.name mn (.union args) =
        .error (.normalizationErr (union_err_msg p.name mn)) := by
      rw [check_union, if_pos hbad]
    simp [get_parameter_binder, get_parameter_binder_core, halias, hann,
      get_parameter_binder_annotated, hcu]
  · intro T args hann hT hargs
    have hcu : check_union p.name mn (.union args) = .ok (true, T) := by
      rcases hargs with rfl | rfl <;>
        simp [check_union, first_non_none, hT]
    refine ⟨hcu, ?_⟩
    rw [get_parameter_binder_annotated, hcu]

/-- C4 witness: the theorem applied at the parameter annotated `int | str`
(rejected) and at a parameter annotated `Optional[str]` (unwrapped). -/
theorem C4_union_restriction_witness :
    get_parameter_binder env0 none "m" p_union =
      .error (.normalizationErr (union_err_msg "x" "m")) ∧
    check_union "q" "m" (.union [.named "str", .noneType]) =
      .ok (true, .named "str") :=
  ⟨(C4_union_restriction env0 none "m" p_union rfl).1 [.named "int", .named "str"]
      rfl (by decide),
   ((C4_union_restriction env0 none "m"
      { name := "q", kind := .positionalOrKeyword,
        annot := some (.union [.named "str", .noneType]) } rfl).2
      (.named "str") [.named "str", .noneType] rfl (by decide) (Or.inl rfl)).1⟩

/-- C2: a coroutine middleware declaring exactly two parameters named
`request` and `handler` (or `next_handler`) - detected by name and position
only: the statement holds for EVERY annotation and parameter kind - is
returned unchanged by `normalize_middleware`; every other coroutine
middleware whose binder synthesis succeeds is wrapped, the sentinel standing
exactly at the parameters named `handler`/`next_handler` (in order); one
invocation of the wrapper passes the continuation at sentinel positions and
itself invokes `next_handler(request)` after awaiting the middleware exactly
when the sentinel occurs nowhere, in particular always when the middleware
declares no continuation parameter (otherwise downstream invocation is left
to the middleware). -/
theorem C2_middleware_passthrough_and_wrap (env : Env) (mw : Func)
    (hc : is_coroutine_fn mw = true) :
    (∀ a b, (sigOf mw).params = [a, b] → a.name = "request" →
      (b.name = "handler" ∨ b.name = "next_handler") →
      normalize_middleware env mw = .ok (.unchanged mw)) ∧
    (∀ bs, is_basic_middleware_signature (sigOf mw).params = false →
      get_binders_for_middleware env mw = .ok bs →
      normalize_middleware env mw = .ok (.wrapped mw bs) ∧
      List.Forall₂ (fun (b : BinderOrSentinel) (p : Param) =>
        is_sentinel b = is_continuation_param p) bs (sigOf mw).params ∧
      (∀ resolve next_value,
        (run_middleware_wrapper bs resolve next_value).wrapper_calls_next =
          !(bs.any is_sentinel)) ∧
      ((∀ p ∈ (sigOf mw).params, is_continuation_param p = false) →
        ∀ resolve next_value,
          (run_middleware_wrapper bs resolve next_value).wrapper_calls_next = true)) := by
  constructor
  · intro a b hp hna hnb
    have hbasic : is_basic_middleware_signature (sigOf mw).params = true := by
      rw [hp, is_basic_middleware_signature]
      rcases hnb with h | h <;> simp [hna, h]
    simp [normalize_middleware, hc, hbasic]
  · intro bs hbasic hbind
    have hshape0 := binders_loop_ok_shape env none (sigOf mw).name
      (sigOf mw).params false bs hbind
    have hshape : List.Forall₂ (fun (b : BinderOrSentinel) (p : Param) =>
        is_sentinel b = is_continuation_param p) bs (sigOf mw).params :=
      hshape0.imp (fun a b h => h.trans (by simp [param_skipped]))
    refine ⟨?_, hshape, ?_, ?_⟩
    · simp [normalize_middleware, hc, hbasic, hbind]
    · intro resolve next_value
      rfl
    · intro hnone resolve next_value
      rw [run_middleware_wrapper]
      rw [@shape_no_sentinel none bs (sigOf mw).params hshape0 hnone]
      rfl

/-- C2 witness: the basic middleware `(request, handler)` passes through
unchanged; the middleware `(request, handler, extra)` is wrapped with the
sentinel for `handler` and query binders for the other parameters. -/
theorem C2_middleware_passthrough_and_wrap_witness :
    normalize_middleware env0 mw_basic = .ok (.unchanged mw_basic) ∧
    normalize_middleware env0 mw_mix = .ok (.wrapped mw_mix mw_mix_binders) :=
  ⟨(C2_middleware_passthrough_and_wrap env0 mw_basic (by decide)).1
      { name := "request", kind := .positionalOrKeyword, annot := none }
      { name := "handler", kind := .positionalOrKeyword, annot := none }
      rfl rfl (Or.inl rfl),
   ((C2_middleware_passthrough_and_wrap env0 mw_mix (by decide)).2
      mw_mix_binders (by decide) (by decide)).1⟩

/-- C5: when every non-substituted parameter of a callable resolves to a
binder, binder synthesis fails with `AmbiguousMethodSignatureError` exactly
when at least two parameters resolve to body binders; with at most one body
binder no such error is raised (the synthesis succeeds). -/
theorem C5_single_body_binder (env : Env) (route : Option Route) (m : Func)
    (hok : ∀ p ∈ (sigOf m).params, param_skipped route p = false →
      ex_ok (get_parameter_binder env route (sigOf m).name p) = true) :
    (body_count env route (sigOf m).name (sigOf m).params ≤ 1 →
      ex_ok (get_binders_for_function env route m) = true) ∧
    (2 ≤ body_count env route (sigOf m).name (sigOf m).params →
      get_binders_for_function env route m = .error .ambiguousMethodSignature) := by
  have h := binders_loop_body_spec env route (sigOf m).name (sigOf m).params false hok
  constructor
  · intro hle
    exact h.1 (show body_count env route (sigOf m).name (sigOf m).params + 0 ≤ 1 by omega)
  · intro h2
    exact h.2 (show 2 ≤ body_count env route (sigOf m).name (sigOf m).params + 0 by omega)

/-- C5 witness: the handler with two `FromJSON`-wrapped parameters fails with
the ambiguous-signature error in the environment registering the body
wrapper. -/
theorem C5_single_body_binder_witness :
    get_binders_for_function envBody none h_two_body =
      .error .ambiguousMethodSignature :=
  (C5_single_body_binder envBody none h_two_body (by decide)).2 (by decide)

/-- C8: for every callable (route handler or middleware) whose binder
synthesis succeeds, the synthesized list has exactly one entry per declared
parameter, and the number of real Binder instances equals the declared
parameter count minus the number of parameters satisfied by the sentinel
substitution (the next-handler placeholder, substituted only on the
middleware path); for route handlers (a route is given) the real-binder
count equals the parameter count. -/
theorem C8_binder_count_invariant (env : Env) (route : Option Route) (m : Func)
    (bs : List BinderOrSentinel)
    (h : get_binders_for_function env route m = .ok bs) :
    bs.length = (sigOf m).params.length ∧
    real_count bs = (sigOf m).params.length - substituted_count route (sigOf m).params ∧
    (∀ r, route = some r → real_count bs = (sigOf m).params.length) := by
  have hsh := binders_loop_ok_shape env route (sigOf m).name (sigOf m).params false bs h
  obtain ⟨hlen, hrc⟩ := counts_of_shape route hsh
  refine ⟨hlen, hrc, ?_⟩
  intro r hr
  subst hr
  have hzero : substituted_count (some r) (sigOf m).params = 0 := by
    simp [substituted_count, param_skipped]
  rw [hrc, hzero]
  omega

/-- C8 witness: the theorem applied to the middleware `(request, handler,
extra)`: three entries for three parameters, two real binders (one parameter
satisfied by the sentinel). -/
theorem C8_binder_count_invariant_witness :
    mw_mix_binders.length = (sigOf mw_mix).params.length ∧
    real_count mw_mix_binders =
      (sigOf mw_mix).params.length - substituted_count none (sigOf mw_mix).params :=
  ⟨(C8_binder_count_invariant env0 none mw_mix mw_mix_binders (by decide)).1,
   (C8_binder_count_invariant env0 none mw_mix mw_mix_binders (by decide)).2.1⟩

/-- C6 counterexample: the middleware `async def mw(*args)` declares a
variadic parameter, yet `normalize_middleware` does not raise
`UnsupportedSignatureError` (the claim asserts it does for middlewares): it
silently wraps the middleware, synthesizing a query-string binder for the
parameter named `args`. -/
theorem C6_variadic_counterexample :
    normalize_middleware env0 mw_star ≠ .error .unsupportedSignature ∧
    normalize_middleware env0 mw_star = .ok (.wrapped mw_star [.real qb_args]) := by
  constructor <;> decide

/-- C6 (amended): route handlers with any variadic or keyword-only parameter
fail normalization with `UnsupportedSignatureError`, but middlewares undergo
no such check: `normalize_middleware` never raises
`UnsupportedSignatureError`, in any environment, for any middleware. -/
theorem C6_variadic_amended (env : Env) :
    (∀ route : Route,
      ((sigOf route.handler).params.any
        (fun p => param_str_starts_star p.kind || p.kind == PKind.keywordOnly)) = true →
      normalize_handler env route = .error .unsupportedSignature) ∧
    (∀ mw : Func, normalize_middleware env mw ≠ .error .unsupportedSignature) := by
  constructor
  · intro route hbad
    simp [normalize_handler, hbad]
  · intro mw
    rw [normalize_middleware]
    by_cases hc : is_coroutine_fn mw = true
    · rw [if_neg (by simp [hc])]
      by_cases hbasic : is_basic_middleware_signature (sigOf mw).params = true
      · rw [if_pos hbasic]
        simp
      · rw [if_neg hbasic]
        cases hbs : get_binders_for_middleware env mw with
        | ok bs => simp
        | error e =>
          simp only
          intro hh
          cases hh
          exact binders_loop_not_unsupported env none (sigOf mw).name
            (sigOf mw).params false hbs
    · rw [Bool.not_eq_true] at hc
      rw [if_pos (by simp [hc])]
      simp

/-- C6 witness: the amended theorem applied to the keyword-only handler route
(rejected) and to the variadic middleware (not rejected). -/
theorem C6_variadic_amended_witness :
    normalize_handler env0 r_kwonly = .error .unsupportedSignature ∧
    normalize_middleware env0 mw_star ≠ .error .unsupportedSignature :=
  ⟨(C6_variadic_amended env0).1 r_kwonly (by decide),
   (C6_variadic_amended env0).2 mw_star⟩

/-- C7 counterexample: resolution of the parameter `special_param`
(annotation `Widget`, matched by no tier) raises
`ValueError("No matching binder.")` - a fixed message that does NOT contain
the parameter's name, contradicting the claim that the error names the
parameter. -/
theorem C7_no_match_counterexample :
    get_parameter_binder env0 none "handler_fn" p_special =
      .error (.valueError "No matching binder.") ∧
    mentions_sub "special_param".toList "No matching binder.".toList = false := by
  constructor <;> decide

/-- C7 (amended): when no precedence tier matches (no reserved alias, an
annotation that is not a union, no global type handler, not a bound-value
wrapper, no matching route path parameter, not a registered service type, not
a simple query-handled type, not `User`/`Identity`), resolution fails with
the generic `ValueError("No matching binder.")` - which does not name the
parameter - and any route whose handler fails normalization makes
`Application.start` fail, aborting application start. -/
theorem C7_no_match_amended (env : Env) :
    (∀ (route : Option Route) (mn : String) (p : Param) (a : PyType),
      env.alias_names p.name = false →
      p.annot = some a →
      (∀ args, a ≠ PyType.union args) →
      env.handler_types a = false →
      is_bound_value_annot a = false →
      route_has_param route p.name = false →
      env.service_types a = false →
      a ∉ types_handled_with_query →
      a ≠ .named "User" → a ≠ .named "Identity" →
      get_parameter_binder env route mn p =
        .error (.valueError "No matching binder.")) ∧
    (∀ app : App, app.started = false →
      (∃ r ∈ app.routes, ex_ok (normalize_handler env r) = false) →
      ex_ok (App.start env app) = false) := by
  constructor
  · intro route mn p a halias hann hnu hht hbv hrt hsv hsim hu hi
    have hcu := check_union_non_union p.name mn a hnu
    have hau : get_parameter_binder_after_union env route mn p.name false a =
        .error (.valueError "No matching binder.") := by
      rw [get_parameter_binder_after_union, if_neg (by simp [hht]),
        if_neg (by simp [hbv]), if_neg (by simp [hrt]), if_neg (by simp [hsv]),
        if_neg hsim, if_neg (not_or.mpr ⟨hu, hi⟩)]
    simp [get_parameter_binder, get_parameter_binder_core, halias, hann,
      get_parameter_binder_annotated, hcu, hau]
  · intro app hstart hex
    have hnh := normalize_handlers_err env app.routes hex
    rw [App.start, if_neg (by simp [hstart])]
    cases hh : normalize_handlers env app.routes with
    | error e => simp [ex_ok]
    | ok rs =>
      rw [hh] at hnh
      simp [ex_ok] at hnh

/-- C7 witness: the amended theorem applied to the parameter `special_param`
in the empty environment, and to an application holding the failing route
`r_bad`. -/
theorem C7_no_match_amended_witness :
    get_parameter_binder env0 none "handler_fn" p_special =
      .error (.valueError "No matching binder.") ∧
    ex_ok (App.start env0 { routes := [r_bad], started := false }) = false :=
  ⟨(C7_no_match_amended env0).1 none "handler_fn" p_special (.named "Widget")
      rfl rfl (fun args hh => PyType.noConfusion hh) rfl rfl rfl rfl
      (by decide) (by decide) (by decide),
   (C7_no_match_amended env0).2 { routes := [r_bad], started := false } rfl
      ⟨r_bad, by simp, by decide⟩⟩

/-- C9 counterexample: re-running `normalize_handler` directly on an
already-normalized handler is neither a no-op nor rejected: since the
synthesized wrapper carries the original's signature (`functools.wraps`, with
`Signature.from_callable` following `__wrapped__`), the zero-parameter
handler `h_zero`, already normalized to `.wrapZero h_zero`, gets wrapped a
SECOND time into `.wrapZero (.wrapZero h_zero)`. -/
theorem C9_renormalization_counterexample :
    normalize_handler env0 { param_names := [], handler := h_zero } =
      .ok (.wrapZero h_zero) ∧
    normalize_handler env0 { param_names := [], handler := .wrapZero h_zero } =
      .ok (.wrapZero (.wrapZero h_zero)) ∧
    Func.wrapZero (.wrapZero h_zero) ≠ .wrapZero h_zero := by
  refine ⟨rfl, rfl, ?_⟩
  decide

/-- C9 (amended): through the supported lifecycle the `started` guard makes
re-normalization a no-op: `Application.start` on a started application
returns it unchanged, and running `start` twice equals running it once -
handlers are not re-wrapped.  Direct re-invocation of `normalize_handler` on
an already-normalized handler performs no detection and wraps again (see the
counterexample). -/
theorem C9_renormalization_amended (env : Env) :
    (∀ app : App, app.started = true → App.start env app = .ok app) ∧
    (∀ app app2 : App, App.start env app = .ok app2 →
      App.start env app2 = .ok app2) := by
  constructor
  · intro app h
    rw [App.start, if_pos h]
  · intro app app2 h
    by_cases hs : app.started = true
    · rw [App.start, if_pos hs] at h
      cases h
      rw [App.start, if_pos hs]
    · rw [Bool.not_eq_true] at hs
      rw [App.start, if_neg (by simp [hs])] at h
      cases hrs : normalize_handlers env app.routes with
      | error e =>
        rw [hrs] at h
        cases h
      | ok rs =>
        rw [hrs] at h
        cases h
        rw [App.start, if_pos rfl]

/-- C9 witness: the amended theorem applied to a started application: the
second start returns it unchanged. -/
theorem C9_renormalization_amended_witness :
    App.start env0 { routes := [r_req], started := true } =
      .ok { routes := [r_req], started := true } :=
  (C9_renormalization_amended env0).1 { routes := [r_req], started := true } rfl

/-- C10: `normalize_handler` checks the signature first (variadic /
keyword-only parameters raise `UnsupportedSignatureError` regardless of the
function kind); after that check every non-coroutine handler - async
generator functions included, since `iscoroutinefunction` is false for them -
is rejected with `TypeError("Sync function not allowed as handler!")`; and
every successful result is the handler itself, the zero-parameter wrapper or
the binder wrapper, so the async-generator wrapper
`get_async_wrapper_for_asyncgen` is never reached from `normalize_handler`. -/
theorem C10_sync_and_asyncgen_rejected (env : Env) (route : Route) :
    (((sigOf route.handler).params.any
        (fun p => param_str_starts_star p.kind || p.kind == PKind.keywordOnly)) = true →
      normalize_handler env route = .error .unsupportedSignature) ∧
    (((sigOf route.handler).params.any
        (fun p => param_str_starts_star p.kind || p.kind == PKind.keywordOnly)) = false →
      is_coroutine_fn route.handler = false →
      normalize_handler env route =
        .error (.typeError "Sync function not allowed as handler!")) ∧
    (∀ s, route.handler = .base s → s.fkind = FKind.asyncgenFn →
      is_coroutine_fn route.handler = false) ∧
    (∀ f, normalize_handler env route = .ok f →
      f = route.handler ∨ f = .wrapZero route.handler ∨
        ∃ bs, f = .wrapBinders route.handler bs) := by
  refine ⟨?_, ?_, ?_, ?_⟩
  · intro hbad
    simp [normalize_handler, hbad]
  · intro hgood hnc
    simp [normalize_handler, hgood, hnc]
  · intro s hs hfk
    rw [hs]
    simp [is_coroutine_fn, hfk]
  · intro f h
    rw [normalize_handler] at h
    split at h
    · cases h
    · split at h
      · rw [get_async_wrapper] at h
        split at h
        · cases h
          right
          left
          rfl
        · split at h
          · cases h
            left
            rfl
          · split at h
            · rename_i bs hbs
              cases h
              right
              right
              exact ⟨bs, rfl⟩
            · cases h
        · split at h
          · rename_i bs hbs
            cases h
            right
            right
            exact ⟨bs, rfl⟩
          · cases h
      · cases h

/-- C10 witness: the async generator handler `h_agen` (not a coroutine
function) is rejected with the `TypeError`. -/
theorem C10_sync_and_asyncgen_rejected_witness :
    normalize_handler env0 r_agen =
      .error (.typeError "Sync function not allowed as handler!") :=
  (C10_sync_and_asyncgen_rejected env0 r_agen).2.1 (by decide) (by decide)

end BlackSheep
